import Mathlib

/-!
Verification development for the payment-gateway backend: the event
indexer/projector (`backend/src/indexer/eventIndexer.ts`), the webhook
outbox and retry worker (`backend/src/services/webhookService.ts`), the
checkpoint logic (`backend/src/database/db.ts`), and the signature
helpers.  Each definition is a shallow embedding of the corresponding
source function; SQLite tables are modelled as Lean lists of rows keyed
by their primary key, and machine integers / BigInt amounts as `Nat`
(all quantities involved are non-negative).
-/

/-! ## Data model (database rows, from the schema in `db.ts`) -/

/-- `PaymentStatus` enum from `types.ts` (Pending=0, Completed=1, Expired=2,
Refunded=3, Cancelled=4). -/
inductive PaymentStatus where
  | Pending
  | Completed
  | Expired
  | Refunded
  | Cancelled
deriving DecidableEq, Repr

/-- A row of the `merchants` table.  `total_payments_received` is stored as
TEXT in SQLite and added via `CAST(... AS INTEGER)`; it is modelled as `Nat`. -/
structure MerchantRow where
  address : String
  business_name : String
  is_active : Bool
  registered_at : Nat
  total_payments_received : Nat
deriving DecidableEq, Repr

/-- A row of the `payment_intents` table (primary key `payment_id`). -/
structure PaymentIntentRow where
  payment_id : String
  merchant : String
  token_address : String
  amount : Nat
  expiry_timestamp : Nat
  status : PaymentStatus
  created_at : Nat
  payer : Option String
  paid_at : Option Nat
  platform_fee : Option Nat
  block_number : Nat
  transaction_hash : String
deriving DecidableEq, Repr

/-- A row of the `webhook_configs` table. -/
structure WebhookConfigRow where
  id : Nat
  merchant_address : String
  webhook_url : String
  secret : String
  is_active : Bool
deriving DecidableEq, Repr

/-- The TEXT `status` column of `webhook_deliveries` takes exactly the
values written by `webhookService.ts`. -/
inductive DeliveryStatus where
  | pending
  | success
  | failed
deriving DecidableEq, Repr

/-- A row of the `webhook_deliveries` table (AUTOINCREMENT primary key `id`).
The JSON `payload` column is threaded opaquely by the source (written once at
creation, read back only to be POSTed) and no claim depends on its contents,
so it is not modelled. -/
structure WebhookDeliveryRow where
  id : Nat
  webhook_config_id : Nat
  payment_id : String
  event_type : String
  status : DeliveryStatus
  attempts : Nat
  last_attempt_at : Option Nat
  next_retry_at : Option Nat
deriving DecidableEq, Repr

/-- A row of the `event_logs` table (AUTOINCREMENT primary key `id`; the
schema in `db.ts` declares no UNIQUE constraint besides the rowid).  The
serialized `args` JSON string is modelled as an opaque fingerprint string. -/
structure EventLogRow where
  id : Nat
  block_number : Nat
  transaction_hash : String
  event_name : String
  args : String
  timestamp : Nat
deriving DecidableEq, Repr

/-- The whole SQLite database state touched by the indexer and the webhook
service, together with the AUTOINCREMENT counters. -/
structure Db where
  merchants : List MerchantRow
  payment_intents : List PaymentIntentRow
  webhook_configs : List WebhookConfigRow
  webhook_deliveries : List WebhookDeliveryRow
  event_logs : List EventLogRow
  next_delivery_id : Nat
  next_event_log_id : Nat
deriving DecidableEq, Repr

def emptyDb : Db :=
  { merchants := [], payment_intents := [], webhook_configs := [],
    webhook_deliveries := [], event_logs := [],
    next_delivery_id := 1, next_event_log_id := 1 }

/-! ## Row-level SQL operations -/

/-- `INSERT OR REPLACE INTO merchants`: the row with the same primary key, if
any, is replaced wholesale; otherwise the row is appended. -/
def upsertMerchant (row : MerchantRow) (tbl : List MerchantRow) : List MerchantRow :=
  if tbl.any (fun m => m.address == row.address) then
    tbl.map (fun m => if m.address == row.address then row else m)
  else
    tbl ++ [row]

/-- `UPDATE merchants SET ... WHERE address = ?`. -/
def updateMerchants (addr : String) (f : MerchantRow → MerchantRow)
    (tbl : List MerchantRow) : List MerchantRow :=
  tbl.map (fun m => if m.address == addr then f m else m)

/-- `INSERT OR REPLACE INTO payment_intents` keyed by `payment_id`. -/
def upsertIntent (row : PaymentIntentRow) (tbl : List PaymentIntentRow) :
    List PaymentIntentRow :=
  if tbl.any (fun p => p.payment_id == row.payment_id) then
    tbl.map (fun p => if p.payment_id == row.payment_id then row else p)
  else
    tbl ++ [row]

/-- `UPDATE payment_intents SET ... WHERE payment_id = ?`. -/
def updateIntents (pid : String) (f : PaymentIntentRow → PaymentIntentRow)
    (tbl : List PaymentIntentRow) : List PaymentIntentRow :=
  tbl.map (fun p => if p.payment_id == pid then f p else p)

/-- `SELECT ... FROM payment_intents WHERE payment_id = ?` (`.get`). -/
def findIntent (pid : String) (tbl : List PaymentIntentRow) :
    Option PaymentIntentRow :=
  tbl.find? (fun p => p.payment_id == pid)

/-- `SELECT ... FROM merchants WHERE address = ?` (`.get`). -/
def findMerchant (addr : String) (tbl : List MerchantRow) : Option MerchantRow :=
  tbl.find? (fun m => m.address == addr)

/-! ## Webhook outbox creation (`webhookService.ts`, `triggerWebhook` /
`createWebhookDelivery`).  `createWebhookDelivery` inserts a `pending` row
with the column defaults `attempts = 0`, `last_attempt_at = NULL`,
`next_retry_at = NULL`.  The immediate inline `sendWebhook` call that follows
each insert performs network I/O; its database effect is modelled below by
the `OutboxStep.attempt` transition of the delivery-state system. -/

def createWebhookDelivery (cfgId : Nat) (pid eventType : String) (db : Db) : Db :=
  { db with
    webhook_deliveries := db.webhook_deliveries ++
      [{ id := db.next_delivery_id, webhook_config_id := cfgId,
         payment_id := pid, event_type := eventType,
         status := .pending, attempts := 0,
         last_attempt_at := none, next_retry_at := none }],
    next_delivery_id := db.next_delivery_id + 1 }

/-- `triggerWebhook`: one delivery per active webhook config of the merchant
(`SELECT * FROM webhook_configs WHERE merchant_address = ? AND is_active = 1`). -/
def triggerWebhook (merchantAddress pid eventType : String) (db : Db) : Db :=
  let cfgs := db.webhook_configs.filter
    (fun c => c.merchant_address == merchantAddress && c.is_active)
  cfgs.foldl (fun d c => createWebhookDelivery c.id pid eventType d) db

/-! ## Decoded chain events (the closed vocabulary of `PAYMENT_GATEWAY_ABI`) -/

inductive ChainEvent where
  | MerchantRegistered (merchant businessName : String) (timestamp : Nat)
  | MerchantDeactivated (merchant : String) (timestamp : Nat)
  | MerchantReactivated (merchant : String) (timestamp : Nat)
  | PaymentIntentCreated (paymentId merchant tokenAddress : String)
      (amount expiryTimestamp : Nat)
  | PaymentCompleted (paymentId payer merchant : String)
      (amount platformFee timestamp : Nat)
  | PaymentRefunded (paymentId merchant payer : String) (amount timestamp : Nat)
  | PaymentExpired (paymentId : String) (timestamp : Nat)
  | PaymentCancelled (paymentId merchant : String) (timestamp : Nat)
deriving DecidableEq, Repr

def eventNameOf : ChainEvent → String
  | .MerchantRegistered _ _ _ => "MerchantRegistered"
  | .MerchantDeactivated _ _ => "MerchantDeactivated"
  | .MerchantReactivated _ _ => "MerchantReactivated"
  | .PaymentIntentCreated _ _ _ _ _ => "PaymentIntentCreated"
  | .PaymentCompleted _ _ _ _ _ _ => "PaymentCompleted"
  | .PaymentRefunded _ _ _ _ _ => "PaymentRefunded"
  | .PaymentExpired _ _ => "PaymentExpired"
  | .PaymentCancelled _ _ _ => "PaymentCancelled"

/-- The `JSON.stringify(args, ...)` fingerprint written into `event_logs.args`:
a deterministic serialization of the decoded arguments. -/
def argsFingerprint : ChainEvent → String
  | .MerchantRegistered m b t => m ++ "," ++ b ++ "," ++ toString t
  | .MerchantDeactivated m t => m ++ "," ++ toString t
  | .MerchantReactivated m t => m ++ "," ++ toString t
  | .PaymentIntentCreated p m tok a e =>
      p ++ "," ++ m ++ "," ++ tok ++ "," ++ toString a ++ "," ++ toString e
  | .PaymentCompleted p payer m a f t =>
      p ++ "," ++ payer ++ "," ++ m ++ "," ++ toString a ++ "," ++ toString f
        ++ "," ++ toString t
  | .PaymentRefunded p m payer a t =>
      p ++ "," ++ m ++ "," ++ payer ++ "," ++ toString a ++ "," ++ toString t
  | .PaymentExpired p t => p ++ "," ++ toString t
  | .PaymentCancelled p m t => p ++ "," ++ m ++ "," ++ toString t

/-! ## Event handlers (`eventIndexer.ts`) -/

/-- `storeEventLog`: a plain `INSERT INTO event_logs` — a fresh AUTOINCREMENT
row is appended unconditionally; the schema carries no dedup constraint. -/
def storeEventLog (blockNumber : Nat) (txHash eventName args : String)
    (timestamp : Nat) (db : Db) : Db :=
  { db with
    event_logs := db.event_logs ++
      [{ id := db.next_event_log_id, block_number := blockNumber,
         transaction_hash := txHash, event_name := eventName,
         args := args, timestamp := timestamp }],
    next_event_log_id := db.next_event_log_id + 1 }

/-- `handleMerchantRegistered`: `INSERT OR REPLACE INTO merchants` with
`is_active = 1` and `total_payments_received = '0'`. -/
def handleMerchantRegistered (merchant businessName : String)
    (eventTimestamp : Nat) (db : Db) : Db :=
  { db with
    merchants := upsertMerchant
      { address := merchant, business_name := businessName,
        is_active := true, registered_at := eventTimestamp,
        total_payments_received := 0 } db.merchants }

def handleMerchantDeactivated (merchant : String) (db : Db) : Db :=
  { db with
    merchants := updateMerchants merchant
      (fun m => { m with is_active := false }) db.merchants }

def handleMerchantReactivated (merchant : String) (db : Db) : Db :=
  { db with
    merchants := updateMerchants merchant
      (fun m => { m with is_active := true }) db.merchants }

/-- `handlePaymentIntentCreated`: `INSERT OR REPLACE INTO payment_intents`;
the column list omits `payer`, `paid_at`, `platform_fee`, which therefore
become NULL in the replacing row.  Then a `payment.created` webhook is
triggered for `args.merchant`. -/
def handlePaymentIntentCreated (paymentId merchant tokenAddress : String)
    (amount expiryTimestamp : Nat) (blockNumber : Nat) (txHash : String)
    (blockTimestamp : Nat) (db : Db) : Db :=
  let db := { db with
    payment_intents := upsertIntent
      { payment_id := paymentId, merchant := merchant,
        token_address := tokenAddress, amount := amount,
        expiry_timestamp := expiryTimestamp, status := .Pending,
        created_at := blockTimestamp, payer := none, paid_at := none,
        platform_fee := none, block_number := blockNumber,
        transaction_hash := txHash } db.payment_intents }
  triggerWebhook merchant paymentId "payment.created" db

/-- `handlePaymentCompleted`: unconditional
`UPDATE payment_intents SET status, payer, paid_at, platform_fee WHERE
payment_id = ?` (note `paid_at` comes from the event argument `timestamp`),
then `UPDATE merchants SET total_payments_received = ... + amount`, then a
`payment.completed` webhook for `args.merchant`. -/
def handlePaymentCompleted (paymentId payer merchant : String)
    (amount platformFee eventTimestamp : Nat) (db : Db) : Db :=
  let db := { db with
    payment_intents := updateIntents paymentId
      (fun p => { p with
        status := .Completed, payer := some payer,
        paid_at := some eventTimestamp,
        platform_fee := some platformFee }) db.payment_intents }
  let db := { db with
    merchants := updateMerchants merchant
      (fun m => { m with
        total_payments_received := m.total_payments_received + amount })
      db.merchants }
  triggerWebhook merchant paymentId "payment.completed" db

/-- `handlePaymentRefunded`: unconditional status update, then the merchant is
looked up from the row and, if found, a `payment.refunded` webhook fires. -/
def handlePaymentRefunded (paymentId : String) (db : Db) : Db :=
  let db := { db with
    payment_intents := updateIntents paymentId
      (fun p => { p with status := .Refunded }) db.payment_intents }
  match findIntent paymentId db.payment_intents with
  | some p => triggerWebhook p.merchant paymentId "payment.refunded" db
  | none => db

/-- `handlePaymentExpired`: unconditional status update (no guard on the
current status), then a `payment.expired` webhook if the row exists. -/
def handlePaymentExpired (paymentId : String) (db : Db) : Db :=
  let db := { db with
    payment_intents := updateIntents paymentId
      (fun p => { p with status := .Expired }) db.payment_intents }
  match findIntent paymentId db.payment_intents with
  | some p => triggerWebhook p.merchant paymentId "payment.expired" db
  | none => db

/-- `handlePaymentCancelled`: unconditional status update, then a
`payment.cancelled` webhook for `args.merchant` (no existence check). -/
def handlePaymentCancelled (paymentId merchant : String) (db : Db) : Db :=
  let db := { db with
    payment_intents := updateIntents paymentId
      (fun p => { p with status := .Cancelled }) db.payment_intents }
  triggerWebhook merchant paymentId "payment.cancelled" db

/-- A parsed on-chain log as it reaches `handleEvent`: the decoded event plus
its block number, transaction hash and block timestamp. -/
structure RawLog where
  event : ChainEvent
  blockNumber : Nat
  txHash : String
  blockTimestamp : Nat
deriving DecidableEq, Repr

/-- `handleEvent`: store the raw event log, then dispatch on the event name. -/
def handleEvent (l : RawLog) (db : Db) : Db :=
  let db := storeEventLog l.blockNumber l.txHash (eventNameOf l.event)
    (argsFingerprint l.event) l.blockTimestamp db
  match l.event with
  | .MerchantRegistered m b t => handleMerchantRegistered m b t db
  | .MerchantDeactivated m _ => handleMerchantDeactivated m db
  | .MerchantReactivated m _ => handleMerchantReactivated m db
  | .PaymentIntentCreated p m tok a e =>
      handlePaymentIntentCreated p m tok a e l.blockNumber l.txHash
        l.blockTimestamp db
  | .PaymentCompleted p payer m a f t =>
      handlePaymentCompleted p payer m a f t db
  | .PaymentRefunded p _ _ _ _ => handlePaymentRefunded p db
  | .PaymentExpired p _ => handlePaymentExpired p db
  | .PaymentCancelled p m _ => handlePaymentCancelled p m db

/-- `processBlockRange` over a list of already-fetched logs: events are
handled in order. -/
def processLogs (logs : List RawLog) (db : Db) : Db :=
  logs.foldl (fun d l => handleEvent l d) db

/-! ## Webhook send and retry (`webhookService.ts`) -/

def MAX_RETRY_ATTEMPTS : Nat := 5

/-- `RETRY_DELAYS` in seconds: 1min, 5min, 15min, 1hr, 2hr. -/
def RETRY_DELAYS : List Nat := [60, 300, 900, 3600, 7200]

/-- `RETRY_DELAYS[attempts - 1] || RETRY_DELAYS[RETRY_DELAYS.length - 1]`:
the JS `||` falls back to the last table entry when the index is out of
range (an out-of-range access yields `undefined`, which is falsy; no table
entry is zero, so the fallback fires exactly on out-of-range indices). -/
def nextRetryDelay (attempts : Nat) : Nat :=
  (RETRY_DELAYS[attempts - 1]?).getD (RETRY_DELAYS.getD (RETRY_DELAYS.length - 1) 0)

/-- Outcome of one HTTP POST of a delivery: a response with a status code,
or an axios failure (network error / 10s timeout). -/
inductive SendOutcome where
  | http (status : Nat)
  | networkError
deriving DecidableEq, Repr

/-- The try-branch of `sendWebhook` succeeds exactly when the response
status is 2xx; a non-2xx response throws into the catch branch. -/
def sendSucceeded : SendOutcome → Bool
  | .http s => decide (200 ≤ s) && decide (s < 300)
  | .networkError => false

/-- The database effect of one `sendWebhook` invocation on the fetched
delivery row, given the HTTP outcome and the current unix time.  Success:
`status = 'success'`, `attempts = attempts + 1`, `last_attempt_at = now`.
Failure: `attempts = attempts + 1`, `last_attempt_at = now`; `status =
'failed'` (terminal) once `attempts >= MAX_RETRY_ATTEMPTS`, otherwise
`next_retry_at = now + nextRetryDelay attempts`. -/
def applySendOutcome (o : SendOutcome) (now : Nat) (d : WebhookDeliveryRow) :
    WebhookDeliveryRow :=
  if sendSucceeded o then
    { d with
      status := .success, attempts := d.attempts + 1,
      last_attempt_at := some now }
  else
    let attempts := d.attempts + 1
    if MAX_RETRY_ATTEMPTS ≤ attempts then
      { d with
        status := .failed, attempts := attempts,
        last_attempt_at := some now }
    else
      { d with
        attempts := attempts, last_attempt_at := some now,
        next_retry_at := some (now + nextRetryDelay attempts) }

/-- The retry worker's selection filter (`startWebhookRetryWorker`):
`status = 'pending' AND next_retry_at IS NOT NULL AND next_retry_at <= ?
AND attempts < ?` with parameters `now` and `MAX_RETRY_ATTEMPTS`. -/
def retryWorkerSelects (now : Nat) (d : WebhookDeliveryRow) : Bool :=
  decide (d.status = .pending) &&
    (match d.next_retry_at with
     | some t => decide (t ≤ now)
     | none => false) &&
    decide (d.attempts < MAX_RETRY_ATTEMPTS)

/-- Modelled from the spec (section 4.5), for comparison with
`retryWorkerSelects`: the selection predicate the spec claims for each
scheduler tick, `status = pending ∧ attempts < maxAttempts ∧ (nextRetryAt
is null ∨ nextRetryAt ≤ now)`. -/
def specSchedulerSelects (now : Nat) (d : WebhookDeliveryRow) : Bool :=
  decide (d.status = .pending) &&
    decide (d.attempts < MAX_RETRY_ATTEMPTS) &&
    (match d.next_retry_at with
     | none => true
     | some t => decide (t ≤ now))

/-! ## The webhook-delivery transition system -/

/-- The slice of database state that the webhook subsystem mutates: the
`webhook_deliveries` table and its AUTOINCREMENT counter. -/
structure OutboxState where
  deliveries : List WebhookDeliveryRow
  nextId : Nat
deriving DecidableEq, Repr

/-- The row inserted by `createWebhookDelivery` (column defaults:
`status = 'pending'`, `attempts = 0`, NULL timestamps). -/
def freshDelivery (id cfgId : Nat) (pid eventType : String) : WebhookDeliveryRow :=
  { id := id, webhook_config_id := cfgId, payment_id := pid,
    event_type := eventType, status := .pending, attempts := 0,
    last_attempt_at := none, next_retry_at := none }

/-- `UPDATE webhook_deliveries SET ... WHERE id = ?` with the row change
computed by `applySendOutcome`. -/
def sendTo (i : Nat) (o : SendOutcome) (now : Nat) (st : OutboxState) :
    OutboxState :=
  { st with
    deliveries := st.deliveries.map
      (fun d => if d.id = i then applySendOutcome o now d else d) }

/-- Transitions of the delivery store.  `create` is `createWebhookDelivery`.
`attempt` is one `sendWebhook` invocation: in the source, `sendWebhook` runs
only (a) inline in `triggerWebhook`, immediately on the freshly inserted row
— which is `pending` with `attempts = 0` — or (b) on a row just selected by
the retry worker, whose SQL filter requires `status = 'pending'` and
`attempts < MAX_RETRY_ATTEMPTS`; the hypothesis `h` records exactly this
guarantee about the targeted id.  No other code path writes to
`webhook_deliveries`. -/
inductive OutboxStep : OutboxState → OutboxState → Prop
  | create (cfgId : Nat) (pid eventType : String) (st : OutboxState) :
      OutboxStep st
        { deliveries :=
            st.deliveries ++ [freshDelivery st.nextId cfgId pid eventType],
          nextId := st.nextId + 1 }
  | attempt (i : Nat) (o : SendOutcome) (now : Nat) (st : OutboxState)
      (h : ∀ d ∈ st.deliveries, d.id = i →
        d.status = .pending ∧ d.attempts < MAX_RETRY_ATTEMPTS) :
      OutboxStep st (sendTo i o now st)

/-- The delivery table starts empty (AUTOINCREMENT ids start at 1). -/
def outboxInit : OutboxState := { deliveries := [], nextId := 1 }

/-- States the webhook subsystem can actually reach from an empty table. -/
def OutboxReachable (st : OutboxState) : Prop :=
  Relation.ReflTransGen OutboxStep outboxInit st

/-! ## Chain poller checkpoint logic (`eventIndexer.ts` `syncEvents`,
`db.ts` `getLastIndexedBlock` / `updateLastIndexedBlock`) -/

def BATCH_SIZE : Nat := 1000

/-- The scan start block: a `lastIndexedBlock` of 0 means unset
(`row?.last_indexed_block || 0`), in which case the configured start block
is used when positive, else `currentBlock - 1000` (block numbers are
non-negative, so the subtraction is truncated); otherwise scanning resumes
from `lastIndexedBlock + 1`. -/
def startBlockOf (configuredStartBlock lastIndexedBlock currentBlock : Nat) : Nat :=
  if lastIndexedBlock = 0 then
    if 0 < configuredStartBlock then configuredStartBlock
    else currentBlock - 1000
  else lastIndexedBlock + 1

/-- The `fromBlock` values taken by the batch loop
`for (fromBlock = startBlock; fromBlock <= currentBlock; fromBlock += 1000)`. -/
def batchStarts (startBlock currentBlock : Nat) : List Nat :=
  (List.range ((currentBlock + 1 - startBlock + (BATCH_SIZE - 1)) / BATCH_SIZE)).map
    (fun k => startBlock + BATCH_SIZE * k)

/-- Whether every `processBlockRange(fromBlock, min(fromBlock + 999,
currentBlock))` call of the pass succeeds.  The first failing batch throws,
aborting the pass: later batches do not run and the checkpoint write is
skipped, so for the resulting checkpoint value only "all succeeded" matters. -/
def passSucceeds (startBlock currentBlock : Nat) (batchOk : Nat → Nat → Bool) :
    Bool :=
  (batchStarts startBlock currentBlock).all
    (fun fb => batchOk fb (min (fb + (BATCH_SIZE - 1)) currentBlock))

/-- The checkpoint value after one `syncEvents` pass: unchanged when there is
nothing to scan (`startBlock > currentBlock`) or when any batch fails (the
`catch` swallows the error before `updateLastIndexedBlock`); set to
`currentBlock` once every batch succeeded. -/
def syncEventsCheckpoint (configuredStartBlock lastIndexedBlock currentBlock : Nat)
    (batchOk : Nat → Nat → Bool) : Nat :=
  let startBlock := startBlockOf configuredStartBlock lastIndexedBlock currentBlock
  if currentBlock < startBlock then lastIndexedBlock
  else if passSucceeds startBlock currentBlock batchOk then currentBlock
  else lastIndexedBlock

/-! ## Signature helpers (`webhookService.ts` `generateSignature` /
`verifySignature`).  Byte strings (Node `Buffer` contents) are modelled as
lists of byte values. -/

/-- Modelled from the spec: the HMAC-SHA256 primitive lives in Node's
`crypto` module, outside this repository.  Per spec section 4.6 it is a pure
function of the secret and the serialized payload producing a 256-bit
(32-byte) MAC; only that output length matters to the claims settled here,
so a simple keyed mixing stands in for the real compression function. -/
def hmacSha256 (secret payload : List Nat) : List Nat :=
  (List.range 32).map (fun i =>
    (secret.foldl (fun a b => a * 31 + b) 7 +
      payload.foldl (fun a b => a * 131 + b) (i + 1)) % 256)

/-- ASCII code of the lower-case hex digit of `n % 16`. -/
def hexDigitCode (n : Nat) : Nat :=
  if n % 16 < 10 then 48 + n % 16 else 87 + n % 16

/-- `.digest('hex')`: two lower-case hex characters per MAC byte. -/
def toHexBytes : List Nat → List Nat
  | [] => []
  | b :: bs => hexDigitCode (b / 16) :: hexDigitCode b :: toHexBytes bs

/-- `generateSignature`: hex digest of the HMAC-SHA256 of the serialized
payload under the secret. -/
def generateSignature (payload secret : List Nat) : List Nat :=
  toHexBytes (hmacSha256 secret payload)

/-- Node's `crypto.timingSafeEqual`: throws a `RangeError` when the two
buffers differ in byte length, otherwise reports whether they hold the same
bytes (the timing guarantee itself is not observable in this model). -/
def timingSafeEqual (a b : List Nat) : Except String Bool :=
  if a.length = b.length then .ok (a == b)
  else .error "RangeError: Input buffers must have the same byte length"

/-- `verifySignature`: compares the supplied signature buffer against the
freshly computed expected signature using `timingSafeEqual`; any length
mismatch therefore propagates the `RangeError` instead of returning false. -/
def verifySignature (payload signature secret : List Nat) : Except String Bool :=
  timingSafeEqual signature (generateSignature payload secret)

/-! ## Concrete fixtures used by witnesses and counterexamples -/

def demoMerchant : MerchantRow :=
  { address := "0xM", business_name := "Shop", is_active := true,
    registered_at := 900, total_payments_received := 0 }

def demoConfig : WebhookConfigRow :=
  { id := 1, merchant_address := "0xM", webhook_url := "https://m.example/hook",
    secret := "k", is_active := true }

/-- A database holding one registered merchant with one active webhook
config and no payments yet. -/
def demoDb : Db :=
  { emptyDb with merchants := [demoMerchant], webhook_configs := [demoConfig] }

/-- A two-event block range: a payment intent for 100 units and its
completion. -/
def demoLogs : List RawLog :=
  [ { event := .PaymentIntentCreated "0xP" "0xM" "0xT" 100 2000,
      blockNumber := 10, txHash := "0xA", blockTimestamp := 1000 },
    { event := .PaymentCompleted "0xP" "0xC" "0xM" 100 1 1500,
      blockNumber := 11, txHash := "0xB", blockTimestamp := 1500 } ]

/-- A payment-intent row that already reached `Completed`, with
`payer`, `paid_at` and `platform_fee` set. -/
def demoCompletedIntent : PaymentIntentRow :=
  { payment_id := "0xP", merchant := "0xM", token_address := "0xT",
    amount := 100, expiry_timestamp := 2000, status := .Completed,
    created_at := 1000, payer := some "0xC", paid_at := some 1500,
    platform_fee := some 1, block_number := 5, transaction_hash := "0xT1" }

/-- `demoDb` after the payment completed: the merchant has received 100. -/
def c1Db : Db :=
  { demoDb with
    merchants := [{ demoMerchant with total_payments_received := 100 }],
    payment_intents := [demoCompletedIntent] }

/-- `demoDb` after processing `demoLogs` once. -/
def c4Db : Db := processLogs demoLogs demoDb

/-- One delivery created for config 7 and then successfully sent at time
100: a terminal row used to witness the C8 invariants. -/
def w8a : OutboxState :=
  { deliveries := [freshDelivery 1 7 "0xP" "payment.created"], nextId := 2 }

def w8b : OutboxState := sendTo 1 (SendOutcome.http 200) 100 w8a

def w8d : WebhookDeliveryRow :=
  applySendOutcome (SendOutcome.http 200) 100
    (freshDelivery 1 7 "0xP" "payment.created")

/-! ## Claims -/

/-- Claim C1 (the code contradicts it): `handlePaymentExpired` carries no
guard on the stored status, so a `PaymentExpired` event for a payment whose
status is already `Completed` overwrites the status to `Expired` and
enqueues a `payment.expired` delivery for the merchant's active
subscription, instead of the no-op the claim requires. -/
theorem c1_expired_event_corrupts_completed_payment :
    c1Db.webhook_deliveries = [] ∧
    ((findIntent "0xP" c1Db.payment_intents).map (fun p => p.status)
      = some PaymentStatus.Completed) ∧
    ((findIntent "0xP" (handlePaymentExpired "0xP" c1Db).payment_intents).map
      (fun p => p.status) = some PaymentStatus.Expired) ∧
    (handlePaymentExpired "0xP" c1Db).webhook_deliveries.map
      (fun d => d.event_type) = ["payment.expired"] := by decide

/-- Claim C2 (the code contradicts it): re-processing an already-processed
block range is not idempotent — `handlePaymentCompleted` adds the completed
amount to the merchant total on every replay, so the total is 100 after one
pass over `demoLogs` and 200 after processing the same range a second
time. -/
theorem c2_replay_double_counts_merchant_total :
    (processLogs demoLogs demoDb).merchants.map
      (fun m => m.total_payments_received) = [100] ∧
    (processLogs demoLogs (processLogs demoLogs demoDb)).merchants.map
      (fun m => m.total_payments_received) = [200] := by decide

/-- Claim C3 (the code contradicts it): `storeEventLog` is a plain INSERT
and the `event_logs` schema has no UNIQUE constraint on
(block_number, transaction_hash, event_name, args), so re-inserting an
identical record appends a second row instead of being a no-op. -/
theorem c3_duplicate_event_log_insert_appends :
    (storeEventLog 10 "0xA" "PaymentExpired" "0xP,1500" 1500
      emptyDb).event_logs.length = 1 ∧
    (storeEventLog 10 "0xA" "PaymentExpired" "0xP,1500" 1500
      (storeEventLog 10 "0xA" "PaymentExpired" "0xP,1500" 1500
        emptyDb)).event_logs.length = 2 := by decide

/-- Claim C4 (the code contradicts it): `handlePaymentIntentCreated` uses
INSERT OR REPLACE, so a `PaymentIntentCreated` for an already-present
`paymentId` does not leave the existing row unchanged — it resets a
`Completed` row to `Pending` and clears `payer`, `paid_at` and
`platform_fee`, violating the assigned-exactly-once-and-never-cleared part
of the claim. -/
theorem c4_replayed_intent_created_resets_row :
    ((findIntent "0xP" c4Db.payment_intents).map
      (fun p => (p.status, p.payer, p.paid_at, p.platform_fee))
      = some (PaymentStatus.Completed, some "0xC", some 1500, some 1)) ∧
    ((findIntent "0xP"
        (handlePaymentIntentCreated "0xP" "0xM" "0xT" 100 2000 10 "0xA" 1000
          c4Db).payment_intents).map
      (fun p => (p.status, p.payer, p.paid_at, p.platform_fee))
      = some (PaymentStatus.Pending, none, none, none)) := by decide

/-- Claim C5 (the code contradicts it): `handleMerchantRegistered` uses
INSERT OR REPLACE with `total_payments_received = '0'`, so a second
`MerchantRegistered` for an address that already received a 100-unit payment
is not ignored — it resets the accumulated total to 0 and overwrites
`registered_at`. -/
theorem c5_duplicate_merchant_registration_resets_total :
    (handlePaymentCompleted "0xP" "0xC" "0xM" 100 1 1500
        (handleMerchantRegistered "0xM" "Shop" 900 emptyDb)).merchants.map
      (fun m => m.total_payments_received) = [100] ∧
    (handleMerchantRegistered "0xM" "Shop" 950
        (handlePaymentCompleted "0xP" "0xC" "0xM" 100 1 1500
          (handleMerchantRegistered "0xM" "Shop" 900 emptyDb))).merchants.map
      (fun m => (m.total_payments_received, m.registered_at)) = [(0, 950)] := by decide

/-- Claim C6 counterexample: a pending delivery with NULL `next_retry_at`
and `attempts = 0 < maxAttempts` satisfies the selection predicate the
claim states, but the retry worker's SQL filter requires
`next_retry_at IS NOT NULL` and so never selects it. -/
theorem c6_null_next_retry_counterexample :
    specSchedulerSelects 1000 (freshDelivery 1 1 "0xP" "payment.created") = true ∧
    retryWorkerSelects 1000 (freshDelivery 1 1 "0xP" "payment.created") = false := by
  decide

/-- Claim C6 (amended): each tick the retry worker selects exactly the
delivery rows with `status = pending`, `attempts < maxAttempts`, and a
non-NULL `next_retry_at ≤ now`; a pending delivery whose `next_retry_at` is
NULL is never selected by the worker (its first attempt happens inline when
the delivery is created). -/
theorem c6_retry_worker_selection (now : Nat) (d : WebhookDeliveryRow) :
    retryWorkerSelects now d = true ↔
      (d.status = .pending ∧ d.attempts < MAX_RETRY_ATTEMPTS ∧
        ∃ t, d.next_retry_at = some t ∧ t ≤ now) := by
  cases hn : d.next_retry_at with
  | none =>
    simp [retryWorkerSelects, hn]
  | some t =>
    simp [retryWorkerSelects, hn]
    tauto

/-- Claim C7: on a failed delivery attempt `attempts` is incremented and
`lastAttemptAt` set to now; the delivery turns terminally `failed` exactly
when the incremented count reaches `maxAttempts = 5`, and otherwise
`nextRetryAt = now + backoffTable[attempts - 1]` with backoff table
[60, 300, 900, 3600, 7200], the lookup clamping to the last entry (7200)
once `attempts` exceeds the table length. -/
theorem c7_failure_schedules_backoff :
    (∀ (d : WebhookDeliveryRow) (now : Nat) (o : SendOutcome),
      sendSucceeded o = false →
        ((applySendOutcome o now d).attempts = d.attempts + 1 ∧
          (applySendOutcome o now d).last_attempt_at = some now ∧
          (MAX_RETRY_ATTEMPTS ≤ d.attempts + 1 →
            (applySendOutcome o now d).status = .failed) ∧
          (d.attempts + 1 < MAX_RETRY_ATTEMPTS →
            (applySendOutcome o now d).status = d.status ∧
            (applySendOutcome o now d).next_retry_at
              = some (now + nextRetryDelay (d.attempts + 1))))) ∧
    MAX_RETRY_ATTEMPTS = 5 ∧
    nextRetryDelay 1 = 60 ∧ nextRetryDelay 2 = 300 ∧ nextRetryDelay 3 = 900 ∧
    nextRetryDelay 4 = 3600 ∧ nextRetryDelay 5 = 7200 ∧ nextRetryDelay 6 = 7200 := by
  refine ⟨?_, by decide, by decide, by decide, by decide, by decide, by decide,
    by decide⟩
  intro d now o hfail
  by_cases hm : MAX_RETRY_ATTEMPTS ≤ d.attempts + 1
  · simp [applySendOutcome, hfail, hm]
  · simp [applySendOutcome, hfail, hm]

/-- Witness for C7: a first failure at time 50 on a fresh delivery yields
`attempts = 1` and `next_retry_at = 50 + 60 = 110`. -/
theorem c7_failure_schedules_backoff_witness :
    (applySendOutcome SendOutcome.networkError 50
      (freshDelivery 1 1 "0xP" "payment.created")).attempts = 1 ∧
    (applySendOutcome SendOutcome.networkError 50
      (freshDelivery 1 1 "0xP" "payment.created")).next_retry_at = some 110 := by
  have h := c7_failure_schedules_backoff.1
    (freshDelivery 1 1 "0xP" "payment.created") 50 SendOutcome.networkError rfl
  exact ⟨h.1, (h.2.2.2 (by decide)).2.trans (by decide)⟩

/-- Claim C9: a `syncEvents` pass leaves the checkpoint unchanged when any
batch of the pass fails; the checkpoint moves only when every batch
succeeded, and then to `currentBlock`; and its value never decreases across
passes. -/
theorem c9_checkpoint_atomic_monotone
    (cfg last cur : Nat) (batchOk : Nat → Nat → Bool) :
    (passSucceeds (startBlockOf cfg last cur) cur batchOk = false →
      syncEventsCheckpoint cfg last cur batchOk = last) ∧
    (syncEventsCheckpoint cfg last cur batchOk ≠ last →
      syncEventsCheckpoint cfg last cur batchOk = cur ∧
      passSucceeds (startBlockOf cfg last cur) cur batchOk = true) ∧
    last ≤ syncEventsCheckpoint cfg last cur batchOk := by
  have hle : ¬ cur < startBlockOf cfg last cur → last ≤ cur := by
    intro h1
    by_cases hl : last = 0
    · omega
    · have hs : startBlockOf cfg last cur = last + 1 := by
        simp [startBlockOf, hl]
      omega
  unfold syncEventsCheckpoint
  by_cases h1 : cur < startBlockOf cfg last cur
  · simp [h1]
  · by_cases h2 : passSucceeds (startBlockOf cfg last cur) cur batchOk = true
    · simp [h1, h2]
      exact hle h1
    · simp [h1, h2]

/-- Witness for C9: with checkpoint 10 and head 12, a pass whose batches
all fail leaves the checkpoint at 10, and the result never drops below
10. -/
theorem c9_checkpoint_atomic_monotone_witness :
    syncEventsCheckpoint 0 10 12 (fun _ _ => false) = 10 ∧
    10 ≤ syncEventsCheckpoint 0 10 12 (fun _ _ => false) := by
  have h := c9_checkpoint_atomic_monotone 0 10 12 (fun _ _ => false)
  exact ⟨h.1 (by decide), h.2.2⟩

/-- Both branches of `sendWebhook` write back `attempts = attempts + 1`. -/
theorem applySendOutcome_attempts (o : SendOutcome) (now : Nat)
    (d : WebhookDeliveryRow) :
    (applySendOutcome o now d).attempts = d.attempts + 1 := by
  by_cases h : sendSucceeded o = true
  · simp [applySendOutcome, h]
  · by_cases hm : MAX_RETRY_ATTEMPTS ≤ d.attempts + 1
    · simp [applySendOutcome, h, hm]
    · simp [applySendOutcome, h, hm]

/-- One `OutboxStep` preserves the attempts bound. -/
theorem outboxStep_attempts_le (st st' : OutboxState) (hstep : OutboxStep st st')
    (ih : ∀ d ∈ st.deliveries, d.attempts ≤ MAX_RETRY_ATTEMPTS) :
    ∀ d ∈ st'.deliveries, d.attempts ≤ MAX_RETRY_ATTEMPTS := by
  cases hstep with
  | create cfgId pid eventType st =>
    intro d hd
    rcases List.mem_append.mp hd with h1 | h1
    · exact ih d h1
    · rw [List.mem_singleton.mp h1]
      simp [freshDelivery]
  | attempt i o now st h =>
    intro d' hd'
    rcases List.mem_map.mp hd' with ⟨d, hd, rfl⟩
    by_cases hi : d.id = i
    · rw [if_pos hi, applySendOutcome_attempts]
      have := (h d hd hi).2
      omega
    · rw [if_neg hi]
      exact ih d hd

/-- A terminal (non-pending) delivery row passes unchanged through any single
`OutboxStep`: `create` only appends, and `attempt` may only target an id
whose rows are pending. -/
theorem outboxStep_preserves_terminal (st st' : OutboxState)
    (hstep : OutboxStep st st') (d : WebhookDeliveryRow)
    (hd : d ∈ st.deliveries) (ht : d.status ≠ .pending) :
    d ∈ st'.deliveries := by
  cases hstep with
  | create cfgId pid eventType st =>
    exact List.mem_append_left _ hd
  | attempt i o now st h =>
    have hi : ¬ d.id = i := fun he => ht (h d hd he).1
    have hmap := List.mem_map_of_mem
      (fun d => if d.id = i then applySendOutcome o now d else d) hd
    simpa [sendTo, hi] using hmap

/-- A terminal delivery row persists through any sequence of steps. -/
theorem outboxRTC_preserves_terminal (st st' : OutboxState)
    (hsteps : Relation.ReflTransGen OutboxStep st st') (d : WebhookDeliveryRow)
    (hd : d ∈ st.deliveries) (ht : d.status ≠ .pending) :
    d ∈ st'.deliveries := by
  induction hsteps with
  | refl => exact hd
  | tail hab hbc ih => exact outboxStep_preserves_terminal _ _ hbc d ih ht

/-- Claim C8: in every reachable state of the delivery store, every delivery
row satisfies `attempts ≤ maxAttempts`; and a row whose status is `success`
or `failed` is terminal — it is never selected by the retry worker and it
persists unchanged through every further sequence of operations. -/
theorem c8_delivery_invariants (st : OutboxState) (hst : OutboxReachable st) :
    (∀ d ∈ st.deliveries, d.attempts ≤ MAX_RETRY_ATTEMPTS) ∧
    (∀ d ∈ st.deliveries, d.status ≠ .pending →
      (∀ now, retryWorkerSelects now d = false) ∧
      (∀ st', Relation.ReflTransGen OutboxStep st st' → d ∈ st'.deliveries)) := by
  refine ⟨?_, ?_⟩
  · induction hst with
    | refl => intro d hd; simp [outboxInit] at hd
    | tail hab hbc ih => exact outboxStep_attempts_le _ _ hbc ih
  · intro d hd ht
    refine ⟨?_, ?_⟩
    · intro now
      simp [retryWorkerSelects, ht]
    · intro st' hsteps
      exact outboxRTC_preserves_terminal st st' hsteps d hd ht

/-- Witness for C8: after creating one delivery and sending it successfully
at time 100 (a reachable two-step execution), the resulting `success` row
respects the attempts bound and is not selected by the worker. -/
theorem c8_delivery_invariants_witness :
    w8d.attempts ≤ MAX_RETRY_ATTEMPTS ∧
    retryWorkerSelects 999999 w8d = false := by
  have s1 : OutboxStep outboxInit w8a :=
    OutboxStep.create 7 "0xP" "payment.created" outboxInit
  have s2 : OutboxStep w8a w8b :=
    OutboxStep.attempt 1 (SendOutcome.http 200) 100 w8a (by decide)
  have hreach : OutboxReachable w8b :=
    Relation.ReflTransGen.tail (Relation.ReflTransGen.single s1) s2
  have h := c8_delivery_invariants w8b hreach
  have hmem : w8d ∈ w8b.deliveries := by decide
  exact ⟨h.1 w8d hmem, (h.2 w8d hmem (by decide)).1 999999⟩

/-- Two hex characters per MAC byte. -/
theorem toHexBytes_length (l : List Nat) : (toHexBytes l).length = 2 * l.length := by
  induction l with
  | nil => rfl
  | cons b bs ih =>
    simp [toHexBytes, ih]
    omega

/-- The hex HMAC-SHA256 digest always has 64 characters. -/
theorem generateSignature_length (payload secret : List Nat) :
    (generateSignature payload secret).length = 64 := by
  simp [generateSignature, toHexBytes_length, hmacSha256]

/-- Claim C10: `verifySignature` returns a boolean exactly when the supplied
signature buffer has the same byte length as the 64-character hex
HMAC-SHA256 digest it computes internally; for any other length,
`crypto.timingSafeEqual` raises a `RangeError` instead of returning
false. -/
theorem c10_verify_signature_length (payload signature secret : List Nat) :
    (generateSignature payload secret).length = 64 ∧
    ((∃ b, verifySignature payload signature secret = Except.ok b) ↔
      signature.length = 64) ∧
    (signature.length ≠ 64 →
      verifySignature payload signature secret =
        Except.error "RangeError: Input buffers must have the same byte length") := by
  have hg := generateSignature_length payload secret
  refine ⟨hg, ?_, ?_⟩
  · unfold verifySignature timingSafeEqual
    rw [hg]
    by_cases h : signature.length = 64
    · simp [h]
    · simp [h]
  · intro h
    unfold verifySignature timingSafeEqual
    rw [hg]
    simp [h]

/-- Witness for C10: the digest of a concrete payload/secret pair has 64 hex
characters, and verifying a 1-byte signature raises the `RangeError`. -/
theorem c10_verify_signature_length_witness :
    (generateSignature [1, 2] [9]).length = 64 ∧
    verifySignature [1, 2] [0] [9] =
      Except.error "RangeError: Input buffers must have the same byte length" := by
  have h := c10_verify_signature_length [1, 2] [0] [9]
  exact ⟨h.1, h.2.2 (by decide)⟩
